import Mathlib

/-!
Shallow embedding of the `rig-tower` library (`src/lib.rs`): a tower-style
composition engine (`Service` / `Layer` / `Stack` / `ServiceBuilder`) together
with its example instantiations (`AgentService`, `AgentLayer[Service]`,
`LoggingMiddleware` / `LoggingService`, `ExtractService`).

Effects are modelled by a writer-plus-failure monad `M α = List Ev × Option α`:
the `List Ev` component records the observable events of one call (log lines
printed with `println!` and calls to opaque upstreams such as
`Agent::prompt` / `Extractor::extract`), and the `Option` component is `none`
exactly when the call terminates abruptly (a `panic!` raised by `.unwrap()` on
a failed upstream step).  The opaque upstreams themselves (the `rig` crate's
`Agent` and `Extractor`) are external collaborators and are modelled as
oracle functions returning `Option` results.
-/

set_option autoImplicit false

namespace RigTower

/-- An observable event of one service call: a log line (from `println!`) or a
call to an identified opaque upstream (`Agent::prompt`, `Extractor::extract`)
with the input that was passed to it. -/
inductive Ev : Type where
  | logE (msg : String)
  | upstreamCall (id : String) (input : String)
  deriving DecidableEq, Repr

/-- The effect monad of one `call`: the trace of events emitted so far together
with `some` result, or `none` for abrupt termination (panic via `.unwrap()`). -/
abbrev M (α : Type) : Type := List Ev × Option α

def M.pure {α : Type} (a : α) : M α := ([], some a)

/-- Sequencing: a failed step keeps its trace and aborts the rest; a successful
step prepends its trace to the continuation's. -/
def M.bind {α β : Type} (x : M α) (f : α → M β) : M β :=
  match x with
  | (tr, none) => (tr, none)
  | (tr, some a) => (tr ++ (f a).1, (f a).2)

/-- Emit one event. -/
def M.tell (e : Ev) : M Unit := ([e], some ())

/-- Abrupt termination with no further events (a bare `panic!`/`.unwrap()` on
an already-obtained failed value). -/
def M.fail {α : Type} : M α := ([], none)

@[simp] theorem M.bind_none {α β : Type} (tr : List Ev) (f : α → M β) :
    M.bind (tr, none) f = (tr, none) := rfl

@[simp] theorem M.bind_some {α β : Type} (tr : List Ev) (a : α) (f : α → M β) :
    M.bind (tr, some a) f = (tr ++ (f a).1, (f a).2) := rfl

/-- The `Service` trait: `async fn call(&mut self, input: String) -> String`.
One operation, consuming a `String` input and producing a `String` output
inside the effect monad `M`. -/
structure Service : Type where
  call : String → M String

/-- The input/output type pair declared by a service's `call` signature. -/
structure ServiceSig : Type 1 where
  Input : Type
  Output : Type

/-- The type pair fixed by the `Service` trait itself: `call` takes a `String`
and returns a `String` for every implementor. -/
def Service.sig : ServiceSig := ⟨String, String⟩

/-- An opaque upstream agent (from the external `rig` crate): `prompt` is the
upstream call, returning `none` when the upstream call fails; `id` identifies
the agent in event traces. -/
structure Agent : Type where
  id : String
  prompt : String → Option String

/-- `self.agent.prompt(input).await` as an effectful step: records the
upstream call and yields the oracle's answer; a `none` answer makes the
subsequent `.unwrap()` panic, i.e. the computation fails. -/
def Agent.promptM (a : Agent) (input : String) : M String :=
  ([Ev.upstreamCall a.id input], a.prompt input)

/-- An opaque upstream extractor (from the external `rig` crate) producing a
structured value of type `T`; `extract` returns `none` when extraction fails. -/
structure Extractor (T : Type) : Type where
  id : String
  extract : String → Option T

/-- `self.extractor.extract(&input).await` as an effectful step. -/
def Extractor.extractM {T : Type} (e : Extractor T) (input : String) : M T :=
  ([Ev.upstreamCall e.id input], e.extract input)

/-- `AgentService`: the base computation service holding one agent. -/
structure AgentService : Type where
  agent : Agent

/-- `AgentService::call`: forwards the input to the agent's `prompt` and
unwraps the result. -/
def AgentService.call (s : AgentService) (input : String) : M String :=
  s.agent.promptM input

def AgentService.toService (s : AgentService) : Service := ⟨s.call⟩

/-- The input/output pair declared by `AgentService`'s `call` impl. -/
def AgentService.sig : ServiceSig := ⟨String, String⟩

/-- `AgentLayerService`: the chaining layer's wrapped service, holding the
inner service and a shared second agent. -/
structure AgentLayerService : Type where
  inner : Service
  agent : Agent

/-- `AgentLayerService::call`: first awaits the inner service, then forwards
its result as the input of the second agent's `prompt`, unwrapping it. -/
def AgentLayerService.call (s : AgentLayerService) (input : String) : M String :=
  M.bind (s.inner.call input) (fun res => s.agent.promptM res)

def AgentLayerService.toService (s : AgentLayerService) : Service := ⟨s.call⟩

/-- The input/output pair declared by `AgentLayerService`'s `call` impl. -/
def AgentLayerService.sig : ServiceSig := ⟨String, String⟩

/-- `AgentLayer`: the chaining layer, holding a shared (`Arc`) agent. -/
structure AgentLayer : Type where
  agent : Agent

/-- `Layer::layer` for `AgentLayer`: wrap the inner service, sharing the
agent handle. -/
def AgentLayer.layer (l : AgentLayer) (inner : Service) : Service :=
  (AgentLayerService.mk inner l.agent).toService

/-- `LoggingService`: the logging layer's wrapped service. -/
structure LoggingService : Type where
  inner : Service

/-- `LoggingService::call`: print a line, await the inner service, print its
result, and return the result unchanged (`res.to_string()` on a `String`). -/
def LoggingService.call (s : LoggingService) (input : String) : M String :=
  M.bind (M.tell (Ev.logE "Before a message!")) (fun _ =>
  M.bind (s.inner.call input) (fun res =>
  M.bind (M.tell (Ev.logE ("LLM response: " ++ res))) (fun _ =>
  M.pure res)))

def LoggingService.toService (s : LoggingService) : Service := ⟨s.call⟩

/-- The input/output pair declared by `LoggingService`'s `call` impl. -/
def LoggingService.sig : ServiceSig := ⟨String, String⟩

/-- `LoggingMiddleware`: the logging layer (a unit struct). -/
structure LoggingMiddleware : Type where

/-- `Layer::layer` for `LoggingMiddleware`. -/
def LoggingMiddleware.layer (_ : LoggingMiddleware) (inner : Service) : Service :=
  (LoggingService.mk inner).toService

/-- `ExtractService`: wraps an upstream extractor for a structured type `T`;
`to_string_pretty` models `serde_json::to_string_pretty` for `T`, which may
fail (`serde_json::Result`). -/
structure ExtractService (T : Type) : Type where
  extractor : Extractor T
  to_string_pretty : T → Option String

/-- `ExtractService::call`: unwrap the extraction result, then unwrap its JSON
serialization. -/
def ExtractService.call {T : Type} (s : ExtractService T) (input : String) : M String :=
  M.bind (s.extractor.extractM input) (fun res =>
    match s.to_string_pretty res with
    | some out => M.pure out
    | none => M.fail)

def ExtractService.toService {T : Type} (s : ExtractService T) : Service := ⟨s.call⟩

/-- The input/output pair declared by `ExtractService`'s `call` impl (it takes
a `String` and returns the pretty-printed JSON `String`). -/
def ExtractService.sig (_T : Type) : ServiceSig := ⟨String, String⟩

/-- A layer value, as the `Layer` trait instances of the source: the no-op
layer `()`, a `Stack` of two layers, or a primitive middleware given by its
wrapping function (e.g. `AgentLayer.layer`, `LoggingMiddleware.layer`). -/
inductive LayerE : Type where
  | unit : LayerE
  | stack (inner outer : LayerE) : LayerE
  | prim (wrap : Service → Service) : LayerE

/-- The `Layer::layer` operation: `()` returns the inner service unchanged
(base case); `Stack` applies its inner layer first and its outer layer on top
(`self.outer.layer(self.inner.layer(inner))`); a primitive layer applies its
wrapping function. -/
def LayerE.layer : LayerE → Service → Service
  | .unit, s => s
  | .stack i o, s => o.layer (i.layer s)
  | .prim w, s => w s

/-- Number of `Stack` constructors in a layer value. -/
def LayerE.stackCount : LayerE → Nat
  | .stack i o => i.stackCount + o.stackCount + 1
  | _ => 0

/-- Primitive (non-`Stack`, non-unit) layers: what a caller passes to
`ServiceBuilder::layer`. -/
def LayerE.isPrim : LayerE → Prop
  | .prim _ => True
  | _ => False

/-- The accumulator shape produced by a builder: a chain of `Stack`s nested
through the `inner` position, each `outer` a primitive added layer,
terminating in the no-op layer `()`. -/
def LayerE.isBuilderChain : LayerE → Prop
  | .unit => True
  | .stack i o => i.isBuilderChain ∧ o.isPrim
  | .prim _ => False

/-- `ServiceBuilder`: holds the accumulated layer (the source's `layer` field,
named `layerAcc` here so the `layer` method below keeps the source's name). -/
structure ServiceBuilder : Type where
  layerAcc : LayerE

/-- `ServiceBuilder::new()`: the accumulator is the no-op layer `()`. -/
def ServiceBuilder.new : ServiceBuilder := ⟨LayerE.unit⟩

/-- `ServiceBuilder::layer(new_layer)`: the new accumulator is
`Stack::new(self.layer, new_layer)` (old accumulator inner, new layer outer). -/
def ServiceBuilder.layer (b : ServiceBuilder) (new_layer : LayerE) : ServiceBuilder :=
  ⟨LayerE.stack b.layerAcc new_layer⟩

/-- `ServiceBuilder::build(service)`: apply the accumulated layer once. -/
def ServiceBuilder.build (b : ServiceBuilder) (service : Service) : Service :=
  b.layerAcc.layer service

/-- Iterate `ServiceBuilder::layer` over a list of layers, in order: models a
builder on which `layer()` has been called once per list element. -/
def ServiceBuilder.addLayers (b : ServiceBuilder) : List LayerE → ServiceBuilder
  | [] => b
  | l :: ls => (b.layer l).addLayers ls

/-! Concrete instrumented values used to test the composition engine. -/

/-- An instrumented middleware that records a before-event and an after-event
around the inner call, shaped like `LoggingService.call`. -/
def tagLayer (name : String) : LayerE :=
  .prim (fun inner => ⟨fun input =>
    M.bind (M.tell (Ev.logE (name ++ "-before"))) (fun _ =>
    M.bind (inner.call input) (fun res =>
    M.bind (M.tell (Ev.logE (name ++ "-after"))) (fun _ =>
    M.pure res)))⟩)

/-- A base service that records one event and echoes its input. -/
def baseProbe : Service := ⟨fun input => ([Ev.logE "base"], some input)⟩

/-- The base-scenario agent, answering `"A:" ++ input`. -/
def agentA : Agent := ⟨"agentA", fun i => some ("A:" ++ i)⟩

/-- The second-upstream agent, answering `"B:" ++ input`. -/
def agentB : Agent := ⟨"agentB", fun i => some ("B:" ++ i)⟩

/-- An agent whose upstream call always fails (so `.unwrap()` would panic). -/
def failingAgent : Agent := ⟨"failing", fun _ => none⟩

/-- The base service over the failing agent. -/
def failingService : Service := (AgentService.mk failingAgent).toService

/-- The chaining-scenario composed service:
`ServiceBuilder::new().layer(AgentLayer(agentB)).build(AgentService(agentA))`. -/
def chainedService : Service :=
  (ServiceBuilder.new.layer (LayerE.prim (AgentLayer.mk agentB).layer)).build
    (AgentService.mk agentA).toService

/-! Helper lemmas about the builder accumulator. -/

theorem LayerE.stackCount_of_isPrim {l : LayerE} (h : l.isPrim) : l.stackCount = 0 := by
  cases l with
  | unit => rfl
  | stack i o => exact h.elim
  | prim w => rfl

theorem ServiceBuilder.addLayers_stackCount (ls : List LayerE) (b : ServiceBuilder)
    (h : ∀ l ∈ ls, l.stackCount = 0) :
    (b.addLayers ls).layerAcc.stackCount = b.layerAcc.stackCount + ls.length := by
  induction ls generalizing b with
  | nil => rfl
  | cons l ls ih =>
    have hl := h l (List.mem_cons_self l ls)
    have hrest : ∀ x ∈ ls, x.stackCount = 0 := fun x hx => h x (List.mem_cons_of_mem l hx)
    calc ((b.layer l).addLayers ls).layerAcc.stackCount
        = (b.layer l).layerAcc.stackCount + ls.length := ih (b.layer l) hrest
      _ = b.layerAcc.stackCount + l.stackCount + 1 + ls.length := rfl
      _ = b.layerAcc.stackCount + (l :: ls).length := by
          rw [hl]; simp [List.length_cons]; omega

theorem ServiceBuilder.addLayers_chain (ls : List LayerE) (b : ServiceBuilder)
    (h : ∀ l ∈ ls, l.isPrim) (hb : b.layerAcc.isBuilderChain) :
    (b.addLayers ls).layerAcc.isBuilderChain := by
  induction ls generalizing b with
  | nil => exact hb
  | cons l ls ih =>
    exact ih (b.layer l)
      (fun x hx => h x (List.mem_cons_of_mem l hx))
      ⟨hb, h l (List.mem_cons_self l ls)⟩

theorem ServiceBuilder.addLayers_build (ls : List LayerE) (b : ServiceBuilder) (s : Service) :
    (b.addLayers ls).build s = ls.foldl (fun acc l => l.layer acc) (b.build s) := by
  induction ls generalizing b with
  | nil => rfl
  | cons l ls ih => exact ih (b.layer l)

/-! Theorems for the claims. -/

/-- C1: Order law: for any two layers `L1`, `L2` and base service `S`,
`ServiceBuilder::new().layer(L1).layer(L2).build(S)` equals
`L2.layer(L1.layer(S))`; with instrumented layers, L2's pre-call event comes
before L1's, and L1's post-call event before L2's — the layer added last is
the outermost wrapper. -/
theorem order_law (L1 L2 : LayerE) (s : Service) :
    (((ServiceBuilder.new.layer L1).layer L2).build s = L2.layer (L1.layer s))
    ∧ ((((ServiceBuilder.new.layer (tagLayer "L1")).layer (tagLayer "L2")).build
          baseProbe).call "x"
        = ([Ev.logE "L2-before", Ev.logE "L1-before", Ev.logE "base",
            Ev.logE "L1-after", Ev.logE "L2-after"], some "x")) :=
  ⟨rfl, rfl⟩

/-- C2: Identity law: the zero-layer builder returns the base service itself,
and the no-op layer `()` satisfies `layer(inner) = inner`. -/
theorem identity_law (s : Service) :
    ServiceBuilder.new.build s = s ∧ LayerE.unit.layer s = s :=
  ⟨rfl, rfl⟩

/-- C6: Associativity of stacking: any grouping of three layers that preserves
their linear order yields the same composed service
`c.layer (b.layer (a.layer s))`, both directly through `Stack` and through the
builder. -/
theorem stack_assoc (a b c : LayerE) (s : Service) :
    ((LayerE.stack (LayerE.stack a b) c).layer s = c.layer (b.layer (a.layer s)))
    ∧ ((LayerE.stack a (LayerE.stack b c)).layer s = c.layer (b.layer (a.layer s)))
    ∧ ((((ServiceBuilder.new.layer a).layer b).layer c).build s
        = c.layer (b.layer (a.layer s)))
    ∧ (((ServiceBuilder.new.layer a).layer (LayerE.stack b c)).build s
        = c.layer (b.layer (a.layer s))) :=
  ⟨rfl, rfl, rfl, rfl⟩

/-- C3 counterexample: after one `layer()` call the accumulator holds one
`Stack`, not `1 - 1 = 0` as the claim's `N-1` count would require. -/
theorem builder_one_layer_stack_count :
    ¬ ((ServiceBuilder.new.layer (LayerE.prim (fun s => s))).layerAcc.stackCount = 1 - 1) := by
  simp [ServiceBuilder.new, ServiceBuilder.layer, LayerE.stackCount]

/-- C3 amended: after N `layer()` calls (each adding a primitive layer) the
accumulator is a chain of exactly N `Stack`s, nested through the `inner`
position and terminating in the no-op layer `()`, and `build` unwinds it by
applying each added layer's wrap exactly once, innermost-first — a left fold
over the added layers, performed once at build time. -/
theorem builder_representation (ls : List LayerE) (s : Service)
    (h : ∀ l ∈ ls, l.isPrim) :
    ((ServiceBuilder.new.addLayers ls).layerAcc.stackCount = ls.length)
    ∧ (ServiceBuilder.new.addLayers ls).layerAcc.isBuilderChain
    ∧ ((ServiceBuilder.new.addLayers ls).build s
        = ls.foldl (fun acc l => l.layer acc) s) := by
  refine ⟨?_, ?_, ?_⟩
  · have := ServiceBuilder.addLayers_stackCount ls ServiceBuilder.new
      (fun l hl => LayerE.stackCount_of_isPrim (h l hl))
    simpa [ServiceBuilder.new, LayerE.stackCount] using this
  · exact ServiceBuilder.addLayers_chain ls ServiceBuilder.new h trivial
  · exact ServiceBuilder.addLayers_build ls ServiceBuilder.new s

/-- Witness for the amended C3 at two concrete instrumented layers. -/
theorem builder_representation_witness :
    ((ServiceBuilder.new.addLayers [tagLayer "L1", tagLayer "L2"]).layerAcc.stackCount = 2)
    ∧ (ServiceBuilder.new.addLayers [tagLayer "L1", tagLayer "L2"]).layerAcc.isBuilderChain
    ∧ ((ServiceBuilder.new.addLayers [tagLayer "L1", tagLayer "L2"]).build baseProbe
        = [tagLayer "L1", tagLayer "L2"].foldl (fun acc l => l.layer acc) baseProbe) :=
  builder_representation [tagLayer "L1", tagLayer "L2"] baseProbe
    (by intro l hl
        rcases List.mem_cons.mp hl with h1 | h1
        · rw [h1]; trivial
        · rcases List.mem_cons.mp h1 with h2 | h2
          · rw [h2]; trivial
          · cases h2)

/-- C4: Fail-fast propagation: if the inner service's call fails (panics),
both example layers surface the same failure unchanged — the logging layer
emits no after-event and the chaining layer performs no second upstream
call (the trace gains no new events beyond the inner trace). -/
theorem fail_fast (inner : Service) (a2 : Agent) (input : String) (tr : List Ev)
    (h : inner.call input = (tr, none)) :
    ((LoggingMiddleware.mk.layer inner).call input
      = (Ev.logE "Before a message!" :: tr, none))
    ∧ (((AgentLayer.mk a2).layer inner).call input = (tr, none)) := by
  constructor
  · simp [LoggingMiddleware.layer, LoggingService.toService, LoggingService.call,
      M.tell, M.bind, h]
  · simp [AgentLayer.layer, AgentLayerService.toService, AgentLayerService.call,
      M.bind, h]

/-- Witness for C4 at the concrete failing base service. -/
theorem fail_fast_witness :
    ((LoggingMiddleware.mk.layer failingService).call "x"
      = (Ev.logE "Before a message!" :: [Ev.upstreamCall "failing" "x"], none))
    ∧ (((AgentLayer.mk agentB).layer failingService).call "x"
      = ([Ev.upstreamCall "failing" "x"], none)) :=
  fail_fast failingService agentB "x" [Ev.upstreamCall "failing" "x"] rfl

/-- C5: End-to-end chaining scenario: if the base upstream answers
`"A:" ++ input` and the chaining layer's second upstream answers
`"B:" ++ input`, then `ServiceBuilder::new().layer(chaining).build(base)`
called with `"x"` returns `"B:A:x"`, the second upstream being prompted with
the first result. -/
theorem chaining_scenario (a1 a2 : Agent)
    (h1 : ∀ i, a1.prompt i = some ("A:" ++ i))
    (h2 : ∀ i, a2.prompt i = some ("B:" ++ i)) :
    ((ServiceBuilder.new.layer (LayerE.prim (AgentLayer.mk a2).layer)).build
        (AgentService.mk a1).toService).call "x"
      = ([Ev.upstreamCall a1.id "x", Ev.upstreamCall a2.id "A:x"], some "B:A:x") := by
  show (AgentLayerService.mk (AgentService.mk a1).toService a2).toService.call "x" = _
  simp [AgentLayerService.toService, AgentLayerService.call, AgentService.toService,
    AgentService.call, Agent.promptM, M.bind, h1, h2]

/-- Witness for C5 at the concrete agents `agentA` and `agentB`. -/
theorem chaining_scenario_witness :
    ((ServiceBuilder.new.layer (LayerE.prim (AgentLayer.mk agentB).layer)).build
        (AgentService.mk agentA).toService).call "x"
      = ([Ev.upstreamCall "agentA" "x", Ev.upstreamCall "agentB" "A:x"], some "B:A:x") :=
  chaining_scenario agentA agentB (fun _ => rfl) (fun _ => rfl)

/-- C7: Logging transparency: when the inner call succeeds with value `v`,
the logging layer returns exactly `v`, adding only a log event before and one
after the inner trace; in particular wrapping the chaining scenario still
returns `"B:A:x"`. -/
theorem logging_transparent (inner : Service) (input v : String) (tr : List Ev)
    (h : inner.call input = (tr, some v)) :
    ((LoggingMiddleware.mk.layer inner).call input
      = (Ev.logE "Before a message!" :: (tr ++ [Ev.logE ("LLM response: " ++ v)]), some v))
    ∧ (((LoggingMiddleware.mk.layer chainedService).call "x").2 = some "B:A:x") := by
  constructor
  · simp [LoggingMiddleware.layer, LoggingService.toService, LoggingService.call,
      M.tell, M.bind, M.pure, h]
  · rfl

/-- Witness for C7 with the concrete base service over `agentA`. -/
theorem logging_transparent_witness :
    ((LoggingMiddleware.mk.layer (AgentService.mk agentA).toService).call "x"
      = (Ev.logE "Before a message!" ::
          ([Ev.upstreamCall "agentA" "x"] ++ [Ev.logE ("LLM response: " ++ "A:x")]), some "A:x"))
    ∧ (((LoggingMiddleware.mk.layer chainedService).call "x").2 = some "B:A:x") :=
  logging_transparent (AgentService.mk agentA).toService "x" "A:x"
    [Ev.upstreamCall "agentA" "x"] rfl

/-- C8 counterexample: the extraction example's `call` declares the same
`(String, String)` pair fixed by the `Service` trait — no service, wrapped or
not, declares a different input/output type pair, because the trait is
monomorphic (`call(&mut self, input: String) -> String`). -/
theorem service_sig_not_different :
    ExtractService.sig Nat = Service.sig
    ∧ AgentLayerService.sig = Service.sig
    ∧ Service.sig = ServiceSig.mk String String :=
  ⟨rfl, rfl, rfl⟩

/-- C8 amended: the `Service` contract fixes both the input and the output
type to `String`; every example impl — including the extraction example —
declares this same pair. Genericity lives only in the `Layer` contract, which
is generic over the inner service and produces a possibly different service
type with the same `String → String` call signature. -/
theorem service_sig_monomorphic (T : Type) :
    Service.sig = ServiceSig.mk String String
    ∧ AgentService.sig = Service.sig
    ∧ AgentLayerService.sig = Service.sig
    ∧ LoggingService.sig = Service.sig
    ∧ ExtractService.sig T = Service.sig :=
  ⟨rfl, rfl, rfl, rfl, rfl⟩

/-- C9: abrupt termination on upstream failure: each example service produces
`some` output exactly when every upstream step succeeds — `AgentService`
yields its agent's answer, `ExtractService` yields a result only when both
extraction and serialization succeed, and `AgentLayerService`'s result is the
second prompt applied to the inner result, `none` (panic) as soon as any step
fails. -/
theorem abrupt_termination {T : Type} (a : Agent) (e : Extractor T)
    (ser : T → Option String) (inner : Service) (input : String) :
    (((AgentService.mk a).toService.call input).2 = a.prompt input)
    ∧ (((ExtractService.mk e ser).call input).2 = (e.extract input).bind ser)
    ∧ ((((AgentLayer.mk a).layer inner).call input).2
        = (inner.call input).2.bind a.prompt) := by
  refine ⟨rfl, ?_, ?_⟩
  · cases he : e.extract input with
    | none => simp [ExtractService.call, Extractor.extractM, M.bind, he]
    | some t =>
      cases hs : ser t with
      | none => simp [ExtractService.call, Extractor.extractM, M.bind, M.fail, he, hs]
      | some out => simp [ExtractService.call, Extractor.extractM, M.bind, M.pure, he, hs]
  · cases hc : inner.call input with
    | mk tr o =>
      cases o with
      | none =>
        simp [AgentLayer.layer, AgentLayerService.toService, AgentLayerService.call,
          M.bind, hc]
      | some r =>
        simp [AgentLayer.layer, AgentLayerService.toService, AgentLayerService.call,
          Agent.promptM, M.bind, hc]

/-- A probe inner service: records each invocation, with the exact input it
received, as an `upstreamCall pid` event, then behaves as `g`. -/
def probeService (pid : String) (g : String → M String) : Service :=
  ⟨fun input => M.bind (M.tell (Ev.upstreamCall pid input)) (fun _ => g input)⟩

/-- The probe invocations with identifier `pid` recorded in a trace. -/
def probeEvents (pid : String) (tr : List Ev) : List Ev :=
  tr.filter (fun e => match e with
    | Ev.upstreamCall q _ => q == pid
    | _ => false)

/-- C10: exactly-once inner invocation with unchanged input: wrapping a probed
inner service with the logging layer or the chaining layer yields exactly one
probe event carrying the wrapped call's input unchanged, and the full traces
show the inner call completing (its whole trace `tr`) before any subsequent
step of the wrapping service runs. -/
theorem inner_called_once (pid : String) (g : String → M String) (a : Agent)
    (input : String)
    (hg : probeEvents pid (g input).1 = [])
    (ha : a.id ≠ pid) :
    (probeEvents pid ((LoggingMiddleware.mk.layer (probeService pid g)).call input).1
      = [Ev.upstreamCall pid input])
    ∧ (probeEvents pid (((AgentLayer.mk a).layer (probeService pid g)).call input).1
      = [Ev.upstreamCall pid input])
    ∧ ((LoggingMiddleware.mk.layer (probeService pid g)).call input
        = match g input with
          | (tr, none) => (Ev.logE "Before a message!" :: Ev.upstreamCall pid input :: tr, none)
          | (tr, some res) => (Ev.logE "Before a message!" :: Ev.upstreamCall pid input ::
              (tr ++ [Ev.logE ("LLM response: " ++ res)]), some res))
    ∧ (((AgentLayer.mk a).layer (probeService pid g)).call input
        = match g input with
          | (tr, none) => (Ev.upstreamCall pid input :: tr, none)
          | (tr, some res) => (Ev.upstreamCall pid input :: (tr ++ [Ev.upstreamCall a.id res]),
              a.prompt res)) := by
  rcases hgi : g input with ⟨tr, o⟩
  rw [hgi] at hg
  have haf : (a.id == pid) = false := by
    exact beq_eq_false_iff_ne.mpr ha
  cases o with
  | none =>
    refine ⟨?_, ?_, ?_, ?_⟩ <;>
      simp [LoggingMiddleware.layer, LoggingService.toService, LoggingService.call,
        AgentLayer.layer, AgentLayerService.toService, AgentLayerService.call,
        probeService, probeEvents, M.tell, M.bind, hgi, List.filter_append,
        hg, List.filter] at hg ⊢ <;>
      exact hg
  | some res =>
    refine ⟨?_, ?_, ?_, ?_⟩ <;>
      simp [LoggingMiddleware.layer, LoggingService.toService, LoggingService.call,
        AgentLayer.layer, AgentLayerService.toService, AgentLayerService.call,
        Agent.promptM, probeService, probeEvents, M.tell, M.bind, M.pure, hgi,
        List.filter_append, List.filter, haf] at hg ⊢ <;>
      exact hg

/-- A concrete probed inner behaviour: one log event, result `"r" ++ input`. -/
def gProbe : String → M String := fun i => ([Ev.logE "g"], some ("r" ++ i))

/-- Witness for C10 at the concrete probe id `"probe"`, inner behaviour
`gProbe` and second agent `agentB`. -/
theorem inner_called_once_witness :
    (probeEvents "probe"
        ((LoggingMiddleware.mk.layer (probeService "probe" gProbe)).call "x").1
      = [Ev.upstreamCall "probe" "x"])
    ∧ (probeEvents "probe"
        (((AgentLayer.mk agentB).layer (probeService "probe" gProbe)).call "x").1
      = [Ev.upstreamCall "probe" "x"])
    ∧ ((LoggingMiddleware.mk.layer (probeService "probe" gProbe)).call "x"
        = match gProbe "x" with
          | (tr, none) => (Ev.logE "Before a message!" :: Ev.upstreamCall "probe" "x" :: tr, none)
          | (tr, some res) => (Ev.logE "Before a message!" :: Ev.upstreamCall "probe" "x" ::
              (tr ++ [Ev.logE ("LLM response: " ++ res)]), some res))
    ∧ (((AgentLayer.mk agentB).layer (probeService "probe" gProbe)).call "x"
        = match gProbe "x" with
          | (tr, none) => (Ev.upstreamCall "probe" "x" :: tr, none)
          | (tr, some res) => (Ev.upstreamCall "probe" "x" ::
              (tr ++ [Ev.upstreamCall agentB.id res]), agentB.prompt res)) :=
  inner_called_once "probe" gProbe agentB "x" rfl (by decide)

/-- A concrete extractor over `Nat` (length of the input). -/
def natExtractor : Extractor Nat := ⟨"extract", fun i => some i.length⟩

/-- A concrete serializer for `Nat`. -/
def natSerializer : Nat → Option String := fun n => some (toString n)

/-- Witness for C1 at concrete instrumented layers and base service. -/
theorem order_law_witness :
    (((ServiceBuilder.new.layer (tagLayer "Z1")).layer (tagLayer "Z2")).build baseProbe
      = (tagLayer "Z2").layer ((tagLayer "Z1").layer baseProbe))
    ∧ ((((ServiceBuilder.new.layer (tagLayer "L1")).layer (tagLayer "L2")).build
          baseProbe).call "x"
        = ([Ev.logE "L2-before", Ev.logE "L1-before", Ev.logE "base",
            Ev.logE "L1-after", Ev.logE "L2-after"], some "x")) :=
  order_law (tagLayer "Z1") (tagLayer "Z2") baseProbe

/-- Witness for C2 at the concrete base service. -/
theorem identity_law_witness :
    ServiceBuilder.new.build baseProbe = baseProbe
    ∧ LayerE.unit.layer baseProbe = baseProbe :=
  identity_law baseProbe

/-- Witness for C6 at three concrete instrumented layers. -/
theorem stack_assoc_witness :
    ((LayerE.stack (LayerE.stack (tagLayer "a") (tagLayer "b")) (tagLayer "c")).layer baseProbe
      = (tagLayer "c").layer ((tagLayer "b").layer ((tagLayer "a").layer baseProbe)))
    ∧ ((LayerE.stack (tagLayer "a") (LayerE.stack (tagLayer "b") (tagLayer "c"))).layer baseProbe
      = (tagLayer "c").layer ((tagLayer "b").layer ((tagLayer "a").layer baseProbe)))
    ∧ ((((ServiceBuilder.new.layer (tagLayer "a")).layer (tagLayer "b")).layer
          (tagLayer "c")).build baseProbe
      = (tagLayer "c").layer ((tagLayer "b").layer ((tagLayer "a").layer baseProbe)))
    ∧ (((ServiceBuilder.new.layer (tagLayer "a")).layer
          (LayerE.stack (tagLayer "b") (tagLayer "c"))).build baseProbe
      = (tagLayer "c").layer ((tagLayer "b").layer ((tagLayer "a").layer baseProbe))) :=
  stack_assoc (tagLayer "a") (tagLayer "b") (tagLayer "c") baseProbe

/-- Witness for the amended C8 at the concrete structured type `Nat`. -/
theorem service_sig_monomorphic_witness :
    Service.sig = ServiceSig.mk String String
    ∧ AgentService.sig = Service.sig
    ∧ AgentLayerService.sig = Service.sig
    ∧ LoggingService.sig = Service.sig
    ∧ ExtractService.sig Nat = Service.sig :=
  service_sig_monomorphic Nat

/-- Witness for C9 at concrete agents, extractor, serializer and inner
service. -/
theorem abrupt_termination_witness :
    (((AgentService.mk agentB).toService.call "x").2 = agentB.prompt "x")
    ∧ (((ExtractService.mk natExtractor natSerializer).call "x").2
        = (natExtractor.extract "x").bind natSerializer)
    ∧ ((((AgentLayer.mk agentB).layer failingService).call "x").2
        = (failingService.call "x").2.bind agentB.prompt) :=
  abrupt_termination agentB natExtractor natSerializer failingService "x"

end RigTower
